import Mathlib

/-!
# LN-dice-game — verification of the session orchestration in `src/App.jsx`

A shallow embedding of the single-file React application `src/App.jsx`
(shmoula/LN-dice-game).  Each embedded definition mirrors one function of the
source; external HTTP calls (LNbits wallet / payments / withdraw links) are
modelled by passing their response — `none` meaning the request failed — as an
explicit argument.  The React `useState` fields and the `rollingRef` ref
together form one `GameState` record; the event-loop level behaviour
(payment-poll backoff loop, withdrawal interval ticks, reset) is modelled as a
step relation over that record.
-/

namespace DiceGame

/-! ## Constants (App.jsx lines 9–14) -/

def FEE_BUFFER_SATS : Nat := 10

def INVOICE_AMOUNT : Nat := 100

def REFRESH_WITHDRAWAL_INTERVAL : Nat := 5000

def REFRESH_POT_INTERVAL : Nat := 10000

def MAX_PAYMENT_ATTEMPTS : Nat := 5

def INITIAL_BACKOFF_MS : Nat := 3000

/-! ## User-facing error messages, exactly the strings of the source -/

def fetchPotErrMsg : String := "Unable to fetch pot balance. Please try again later."

def invoiceErrMsg : String := "Failed to create payment invoice. Please try again."

def potTooLowMsg : String := "Pot too low to cover withdrawal fee."

def withdrawCreateErrMsg : String := "Unable to create withdrawal link. Please try again later."

def paymentTimeoutMsg : String := "Payment is taking longer than expected. Please check your wallet."

def paymentCheckErrMsg : String := "Error checking payment status. Please refresh."

def withdrawCheckErrMsg : String := "Error checking withdrawal. Please try again later."

/-! ## Session state -/

/-- The rendered `result` message: either the win banner or the loss banner,
which displays the rolled value (App.jsx lines 124 and 130–140). -/
inductive GameResult where
  | won : GameResult
  | lost : ℤ → GameResult
deriving DecidableEq

/-- All `useState` fields of the component (App.jsx lines 18–28) together with
the `rollingRef` ref (line 31). -/
structure GameState where
  guess : Option ℤ
  invoice : Option String
  paymentHash : Option String
  paid : Bool
  pot : Nat
  result : Option GameResult
  rolling : Bool
  lnurl : Option String
  withdrawId : Option String
  awaitingPayout : Bool
  errorMessage : Option String
  rollingRef : Bool
deriving DecidableEq

/-- Initial state of a freshly mounted component: every `useState` initial
value of lines 18–28 and `rollingRef = false` (line 31). -/
def initState : GameState :=
  { guess := none, invoice := none, paymentHash := none, paid := false,
    pot := 0, result := none, rolling := false, lnurl := none,
    withdrawId := none, awaitingPayout := false, errorMessage := none,
    rollingRef := false }

/-! ## Pot ledger reader (App.jsx lines 34–47)

`balanceResp` is the wallet query's response: `some b` is the external balance
in millisats, `none` means the request threw. -/

/-- Model of `fetchPotFromWallet`: on success stores and returns
`Math.floor(balance / 1000)`; on failure records the error message and
returns `0`, leaving the stored pot untouched. -/
def fetchPotFromWallet (balanceResp : Option Nat) (s : GameState) :
    GameState × Nat :=
  match balanceResp with
  | some balance =>
      let sats := balance / 1000
      ({ s with pot := sats }, sats)
  | none => ({ s with errorMessage := some fetchPotErrMsg }, 0)

/-! ## Session reset (App.jsx lines 49–60) -/

/-- Model of `resetGameState`: clears every session field except the pot; the
`rollingRef` ref is not touched by it (only `setRolling(false)` is called). -/
def resetGameState (s : GameState) : GameState :=
  { s with guess := none, invoice := none, paymentHash := none, paid := false,
           result := none, rolling := false, lnurl := none, withdrawId := none,
           awaitingPayout := false, errorMessage := none }

/-! ## Invoice issuer (App.jsx lines 62–80) -/

/-- Model of `createInvoice`: `invoiceResp = some (bolt11, hash)` is a successful
create-payment response, `none` a thrown request. -/
def createInvoice (invoiceResp : Option (String × String)) (s : GameState) :
    GameState :=
  match invoiceResp with
  | some r => { s with invoice := some r.1, paymentHash := some r.2 }
  | none => { s with errorMessage := some invoiceErrMsg }

/-! ## Payout issuer (App.jsx lines 82–114) -/

/-- Request body of the create-withdraw-link call (App.jsx lines 91–98). -/
structure WithdrawRequest where
  min_withdrawable : ℤ
  max_withdrawable : ℤ
  uses : Nat
  wait_time : Nat
  is_unique : Bool
deriving DecidableEq

/-- Model of `createLnurlWithdraw withdrawable`: clears the error message, then either
signals "Pot too low" without any external call (`withdrawable ≤ 0`), or
posts a withdraw-link request; `lnurlResp = some (lnurl, id)` is a successful
response, `none` a thrown request.  Returns the new state together with the
request that was sent, if any. -/
def createLnurlWithdraw (withdrawable : ℤ)
    (lnurlResp : Option (String × String)) (s : GameState) :
    GameState × Option WithdrawRequest :=
  let s := { s with errorMessage := none }
  if withdrawable ≤ 0 then
    ({ s with errorMessage := some potTooLowMsg }, none)
  else
    match lnurlResp with
    | some r =>
        ({ s with lnurl := some r.1, withdrawId := some r.2 },
         some { min_withdrawable := withdrawable,
                max_withdrawable := withdrawable,
                uses := 1, wait_time := 1, is_unique := true })
    | none => ({ s with errorMessage := some withdrawCreateErrMsg }, none)

/-! ## Outcome engine (App.jsx line 121) -/

/-- The dice draw `Math.floor(Math.random() * 6) + 1` with the random source `r ∈ [0,1)`
made explicit (modelled over ℚ). -/
def draw (r : ℚ) : ℤ := ⌊r * 6⌋ + 1

/-- The JS strict comparison `diceRoll === guess` (App.jsx line 123); a `null`
guess compares unequal to every number. -/
def isGuess (guess : Option ℤ) (d : ℤ) : Bool :=
  match guess with
  | some g => d == g
  | none => false

/-! ## Roll step (App.jsx lines 116–145) -/

/-- The external responses consumed during one execution of `rollDice`:
the `Math.random()` value, the wallet-balance response of the pot refresh and
the create-withdraw-link response (each `none` on request failure). -/
structure RollEnv where
  r : ℚ
  balanceResp : Option Nat
  withdrawResp : Option (String × String)

/-- Result of one `rollDice` invocation: the final state, the withdraw-link
request sent (if any) and the list of dice values actually drawn. -/
structure RollOut where
  state : GameState
  request : Option WithdrawRequest
  draws : List ℤ
deriving DecidableEq

/-- Model of `rollDice`: guarded by `rollingRef` (line 117) — a re-entrant trigger
returns immediately, drawing nothing.  Otherwise draws once; on a win sets the
result and `awaitingPayout`, refreshes the pot and creates a withdraw link for
`latestPot - FEE_BUFFER_SATS`; on a loss refreshes the pot and shows the
rolled value.  Finally clears `rolling` and `rollingRef`. -/
def rollDice (env : RollEnv) (s : GameState) : RollOut :=
  if s.rollingRef then ⟨s, none, []⟩
  else
    let s := { s with rollingRef := true, rolling := true }
    let d := draw env.r
    let (s, req) :=
      if isGuess s.guess d then
        let s := { s with result := some GameResult.won, awaitingPayout := true }
        let (s, latestPot) := fetchPotFromWallet env.balanceResp s
        createLnurlWithdraw ((latestPot : ℤ) - (FEE_BUFFER_SATS : ℤ))
          env.withdrawResp s
      else
        let (s, _) := fetchPotFromWallet env.balanceResp s
        ({ s with result := some (GameResult.lost d) }, none)
    ⟨{ s with rolling := false, rollingRef := false }, req, [d]⟩

/-- The pot value that `fetchPotFromWallet` hands back inside `rollDice`'s win
branch: the fresh reading on success, `0` on failure. -/
def freshPot (env : RollEnv) : Nat :=
  match env.balanceResp with
  | some b => b / 1000
  | none => 0

/-! ## Payment watcher (App.jsx lines 147–188)

`checkPayment`'s inner `verify` loop, driven by the sequence of responses the
`get-payment` endpoint returns: one `PollResp` per poll actually performed; an
empty remainder means the next scheduled poll's response never arrives. -/

/-- Response of one `get-payment` poll. -/
inductive PollResp where
  | paid : PollResp
  | unpaid : PollResp
  | err : PollResp
deriving DecidableEq

/-- How the verify loop ends. -/
inductive PayOutcome where
  | confirmed : PayOutcome
  | timedOut : PayOutcome
  | errored : PayOutcome
  | pending : PayOutcome
deriving DecidableEq

/-- Observable trace of one run of the verify loop: its final outcome, how
many polls were performed, and the `setTimeout` delays scheduled between
consecutive polls. -/
structure VerifyResult where
  outcome : PayOutcome
  polls : Nat
  delays : List Nat
deriving DecidableEq

/-- The backoff of App.jsx lines 173–176:
`Math.min(INITIAL_BACKOFF_MS * 2 ** (attempts - 1), 30000)`. -/
def backoff (attempts : Nat) : Nat :=
  min (INITIAL_BACKOFF_MS * 2 ^ (attempts - 1)) 30000

/-- The recursive `verify` (App.jsx lines 152–182), one list entry per poll
response: a thrown request ends the loop with an error, a paid response
confirms, an unpaid response increments `attempts` and either times out at
`MAX_PAYMENT_ATTEMPTS` or schedules the next poll after `backoff attempts`. -/
def verifyList : List PollResp → Nat → VerifyResult
  | [], _ => ⟨PayOutcome.pending, 0, []⟩
  | resp :: rest, attempts =>
      match resp with
      | PollResp.err => ⟨PayOutcome.errored, 1, []⟩
      | PollResp.paid => ⟨PayOutcome.confirmed, 1, []⟩
      | PollResp.unpaid =>
          let attempts := attempts + 1
          if MAX_PAYMENT_ATTEMPTS ≤ attempts then ⟨PayOutcome.timedOut, 1, []⟩
          else
            let v := verifyList rest attempts
            ⟨v.outcome, v.polls + 1, backoff attempts :: v.delays⟩

/-- Model of `checkPayment`: starts `verify` with `attempts = 0` (App.jsx line 150). -/
def checkPaymentRun (resps : List PollResp) : VerifyResult :=
  verifyList resps 0

/-! ## Stale-poll resolution (App.jsx lines 152–165 and 185–187)

`verify` captures the closure flag `cancelled`; when a paid response arrives
it checks the flag, and if it is still false it sets `paid` and starts the
roll. -/

/-- Resolution of one in-flight `verify` whose response says the invoice is
paid: a no-op when `cancelled` is set, otherwise `setPaid(true)` followed by
`rollDice()`. -/
def verifyPaidResolve (cancelled : Bool) (env : RollEnv) (s : GameState) :
    GameState :=
  if cancelled then s
  else (rollDice env { s with paid := true }).state

/-- The value of a pending poll's `cancelled` flag after `resetGameState`
runs: the payment-check effect (App.jsx lines 205–208) invokes
`checkPayment()` but discards the canceller closure it returns, and
`resetGameState` (lines 49–60) only writes the `useState` fields — nothing in
the component ever sets `cancelled`, so it is still `false` after a reset. -/
def cancelledFlagAfterReset : Bool := false

/-! ## Payout watcher (App.jsx lines 211–232) -/

/-- Guard of the withdrawal-poll effect (App.jsx line 212): the 5-second
interval exists exactly while `awaitingPayout` holds and a withdraw id is
set. -/
def withdrawPollActive (s : GameState) : Bool :=
  s.awaitingPayout && s.withdrawId.isSome

/-- One tick of the withdrawal interval: `usedResp = some u` is the
`get-withdraw-link` response's `used` field, `none` a thrown request.  On
`used` the pot is refreshed and then the session reset; a thrown request only
records the error message and the interval keeps running. -/
def withdrawTickFn (usedResp : Option Bool) (balanceResp : Option Nat)
    (s : GameState) : GameState :=
  if withdrawPollActive s then
    match usedResp with
    | none => { s with errorMessage := some withdrawCheckErrMsg }
    | some false => s
    | some true => resetGameState (fetchPotFromWallet balanceResp s).1
  else s

/-! ## Guess selection (App.jsx lines 190–202) -/

/-- Model of `handleGuess`: clears the previous round's result, payment flag, payout
fields and error, records the guess, then requests an invoice. -/
def handleGuess (n : ℤ) (invoiceResp : Option (String × String))
    (s : GameState) : GameState :=
  createInvoice invoiceResp
    { s with guess := some n, result := none, paid := false, lnurl := none,
             withdrawId := none, awaitingPayout := false, errorMessage := none }

/-! ## Event-loop step machine

Each event is one run-to-completion handler execution of the component, with
the external responses it consumes passed explicitly. -/

/-- The handler executions that can mutate the session. -/
inductive Event where
  | selectGuess : ℤ → Option (String × String) → Event
  | paymentPaid : RollEnv → Event
  | paymentTimeout : Event
  | paymentCheckFailed : Event
  | withdrawTick : Option Bool → Option Nat → Event
  | potRefresh : Option Nat → Event
  | reset : Event

/-- One step of the session: dispatches each event to the embedded handler
it corresponds to in App.jsx. -/
def step (e : Event) (s : GameState) : GameState :=
  match e with
  | Event.selectGuess n resp => handleGuess n resp s
  | Event.paymentPaid env => (rollDice env { s with paid := true }).state
  | Event.paymentTimeout => { s with errorMessage := some paymentTimeoutMsg }
  | Event.paymentCheckFailed => { s with errorMessage := some paymentCheckErrMsg }
  | Event.withdrawTick u b => withdrawTickFn u b s
  | Event.potRefresh b => (fetchPotFromWallet b s).1
  | Event.reset => resetGameState s

/-- States reachable from the freshly mounted component. -/
inductive Reachable : GameState → Prop where
  | init : Reachable initState
  | step : ∀ (e : Event) (s : GameState), Reachable s → Reachable (step e s)

/-- The inductive invariant behind claim C5: the rendered result exists exactly
when payment is confirmed, and the roll guard is down in every quiescent
state. -/
def SessionInv (s : GameState) : Prop :=
  (s.result.isSome ↔ s.paid = true) ∧ s.rollingRef = false

/-- A session sitting in the awaiting-payout state, used to instantiate the
payout-watcher theorem. -/
def samplePayoutState : GameState :=
  { initState with
    guess := some 2,
    invoice := some "inv",
    paymentHash := some "hash",
    paid := true,
    result := some GameResult.won,
    lnurl := some "lnurl1abc",
    withdrawId := some "wid1",
    awaitingPayout := true }



/-! ## Helper lemmas -/

lemma rollDice_result (env : RollEnv) (s : GameState) (h : s.rollingRef = false) :
    (rollDice env s).state.result =
      if isGuess s.guess (draw env.r) then some GameResult.won
      else some (GameResult.lost (draw env.r)) := by
  by_cases hg : isGuess s.guess (draw env.r) = true <;>
    cases hb : env.balanceResp <;>
      cases hw : env.withdrawResp <;>
        simp [rollDice, h, hg, hb, hw, fetchPotFromWallet, createLnurlWithdraw] <;>
          (try (split_ifs <;> simp_all))

lemma rollDice_paid (env : RollEnv) (s : GameState) (h : s.rollingRef = false) :
    (rollDice env s).state.paid = s.paid := by
  by_cases hg : isGuess s.guess (draw env.r) = true <;>
    cases hb : env.balanceResp <;>
      cases hw : env.withdrawResp <;>
        simp [rollDice, h, hg, hb, hw, fetchPotFromWallet, createLnurlWithdraw] <;>
          (try (split_ifs <;> simp_all))

lemma rollDice_rollingRef (env : RollEnv) (s : GameState) (h : s.rollingRef = false) :
    (rollDice env s).state.rollingRef = false := by
  by_cases hg : isGuess s.guess (draw env.r) = true <;>
    cases hb : env.balanceResp <;>
      cases hw : env.withdrawResp <;>
        simp [rollDice, h, hg, hb, hw, fetchPotFromWallet, createLnurlWithdraw]

lemma rollDice_draws (env : RollEnv) (s : GameState) (h : s.rollingRef = false) :
    (rollDice env s).draws = [draw env.r] := by
  by_cases hg : isGuess s.guess (draw env.r) = true <;>
    cases hb : env.balanceResp <;>
      cases hw : env.withdrawResp <;>
        simp [rollDice, h, hg, hb, hw, fetchPotFromWallet, createLnurlWithdraw]

lemma rollDice_awaitingPayout_of_win (env : RollEnv) (s : GameState)
    (h : s.rollingRef = false) (hg : isGuess s.guess (draw env.r) = true) :
    (rollDice env s).state.awaitingPayout = true := by
  cases hb : env.balanceResp <;>
    cases hw : env.withdrawResp <;>
      simp [rollDice, h, hg, hb, hw, fetchPotFromWallet, createLnurlWithdraw] <;>
        (try (split_ifs <;> simp_all))

lemma rollDice_win_potTooLow (env : RollEnv) (s : GameState)
    (h : s.rollingRef = false) (hg : isGuess s.guess (draw env.r) = true)
    (hlow : (freshPot env : ℤ) - (FEE_BUFFER_SATS : ℤ) ≤ 0) :
    (rollDice env s).request = none ∧
    (rollDice env s).state.errorMessage = some potTooLowMsg ∧
    (rollDice env s).state.lnurl = s.lnurl ∧
    (rollDice env s).state.withdrawId = s.withdrawId ∧
    (rollDice env s).state.awaitingPayout = true := by
  cases hb : env.balanceResp with
  | none =>
      have h0 : ((0 : Nat) : ℤ) - (FEE_BUFFER_SATS : ℤ) ≤ 0 := by
        norm_num [FEE_BUFFER_SATS]
      simp [rollDice, h, hg, fetchPotFromWallet, createLnurlWithdraw, hb, h0]
  | some b =>
      have h1 : ((b / 1000 : Nat) : ℤ) - 10 ≤ 0 := by
        simpa [freshPot, hb, FEE_BUFFER_SATS] using hlow
      have h0 : (b : ℤ) / 1000 ≤ 10 := by omega
      simp [rollDice, h, hg, fetchPotFromWallet, createLnurlWithdraw, hb,
        FEE_BUFFER_SATS, h0]

lemma rollDice_request (env : RollEnv) (s : GameState) (h : s.rollingRef = false) :
    (rollDice env s).request =
      if isGuess s.guess (draw env.r) then
        if (freshPot env : ℤ) - (FEE_BUFFER_SATS : ℤ) ≤ 0 then none
        else
          match env.withdrawResp with
          | some _ =>
              some { min_withdrawable := (freshPot env : ℤ) - (FEE_BUFFER_SATS : ℤ),
                     max_withdrawable := (freshPot env : ℤ) - (FEE_BUFFER_SATS : ℤ),
                     uses := 1, wait_time := 1, is_unique := true }
          | none => none
      else none := by
  by_cases hg : isGuess s.guess (draw env.r) = true <;>
    cases hb : env.balanceResp <;>
      cases hw : env.withdrawResp <;>
        simp [rollDice, h, hg, hb, hw, freshPot, fetchPotFromWallet,
          createLnurlWithdraw] <;>
          (try (split_ifs <;> simp_all))

lemma verifyList_polls_le (rs : List PollResp) :
    ∀ a : Nat, a < MAX_PAYMENT_ATTEMPTS →
      (verifyList rs a).polls ≤ MAX_PAYMENT_ATTEMPTS - a := by
  induction rs with
  | nil => intro a ha; simp [verifyList]
  | cons r rest ih =>
      intro a ha
      cases r with
      | err => simp [verifyList]; omega
      | paid => simp [verifyList]; omega
      | unpaid =>
          by_cases hm : MAX_PAYMENT_ATTEMPTS ≤ a + 1
          · simp [verifyList, hm]; omega
          · have := ih (a + 1) (by omega)
            simp [verifyList, hm]
            omega

lemma sessionInv_init : SessionInv initState := by
  constructor <;> simp [initState]

lemma sessionInv_step (e : Event) (s : GameState) (ih : SessionInv s) :
    SessionInv (step e s) := by
  obtain ⟨hres, hroll⟩ := ih
  cases e with
  | selectGuess n resp =>
      cases resp <;> simp [step, SessionInv, handleGuess, createInvoice, hroll]
  | paymentPaid env =>
      have h1 := rollDice_result env { s with paid := true } (by simpa using hroll)
      have h2 := rollDice_paid env { s with paid := true } (by simpa using hroll)
      have h3 := rollDice_rollingRef env { s with paid := true } (by simpa using hroll)
      refine ⟨?_, by simpa [step] using h3⟩
      simp only [step]
      rw [h1, h2]
      split <;> simp
  | paymentTimeout =>
      exact ⟨by simpa [step] using hres, by simpa [step] using hroll⟩
  | paymentCheckFailed =>
      exact ⟨by simpa [step] using hres, by simpa [step] using hroll⟩
  | withdrawTick u b =>
      simp only [step, withdrawTickFn]
      split_ifs with hact
      · cases u with
        | none => exact ⟨by simpa using hres, by simpa using hroll⟩
        | some used =>
            cases used
            · exact ⟨hres, hroll⟩
            · cases b <;>
                exact ⟨by simp [resetGameState, fetchPotFromWallet],
                       by simpa [resetGameState, fetchPotFromWallet] using hroll⟩
      · exact ⟨hres, hroll⟩
  | potRefresh b =>
      cases b <;>
        exact ⟨by simpa [step, fetchPotFromWallet] using hres,
               by simpa [step, fetchPotFromWallet] using hroll⟩
  | reset =>
      exact ⟨by simp [step, resetGameState], by simpa [step, resetGameState] using hroll⟩

lemma reachable_sessionInv (s : GameState) (h : Reachable s) : SessionInv s := by
  induction h with
  | init => exact sessionInv_init
  | step e s' _ ih => exact sessionInv_step e s' ih

/-! ## The claims -/


/-- Claim C3, counterexample: with a stored pot of 500 sats, a failed wallet
query makes `fetchPotFromWallet` return `0`, not the previous known value 500
(the stored pot itself is left unchanged). -/
theorem C3_counterexample :
    (fetchPotFromWallet none { initState with pot := 500 }).2 = 0 ∧
    (fetchPotFromWallet none { initState with pot := 500 }).2 ≠ 500 ∧
    (fetchPotFromWallet none { initState with pot := 500 }).1.pot = 500 := by
  refine ⟨?_, ?_, ?_⟩ <;> simp [fetchPotFromWallet, initState]

/-- Claim C3 as amended: on a successful query `fetchPotFromWallet` stores and
returns `floor(balance / 1000)`; on failure it leaves the stored pot
unchanged and records the transient error, but returns `0` rather than the
previous known value. -/
theorem C3_fetchPot_amended (s : GameState) (b : Nat) :
    (fetchPotFromWallet (some b) s).1.pot = b / 1000 ∧
    (fetchPotFromWallet (some b) s).2 = b / 1000 ∧
    (fetchPotFromWallet none s).1.pot = s.pot ∧
    (fetchPotFromWallet none s).1.errorMessage = some fetchPotErrMsg ∧
    (fetchPotFromWallet none s).2 = 0 := by
  refine ⟨?_, ?_, ?_, ?_, ?_⟩ <;> simp [fetchPotFromWallet]

/-- Claim C7: triggering the roll while `rollingRef` is true is a complete
no-op — the state is untouched, no withdraw request is made and no dice value
is drawn — while a roll entered with the guard down draws exactly once and
lowers the guard again on exit. -/
theorem C7_roll_single_flight (s : GameState) (env : RollEnv) :
    (s.rollingRef = true → rollDice env s = ⟨s, none, []⟩) ∧
    (s.rollingRef = false →
      (rollDice env s).draws = [draw env.r] ∧
      (rollDice env s).state.rollingRef = false) := by
  constructor
  · intro h; simp [rollDice, h]
  · intro h; exact ⟨rollDice_draws env s h, rollDice_rollingRef env s h⟩

/-- Witness for C7 at concrete inputs: a second trigger on a rolling session
is the identity, and a roll from a quiescent session draws exactly once. -/
theorem C7_witness :
    rollDice ⟨0, none, none⟩ { initState with rollingRef := true } =
      ⟨{ initState with rollingRef := true }, none, []⟩ ∧
    (rollDice ⟨0, none, none⟩ initState).draws = [draw 0] :=
  ⟨(C7_roll_single_flight { initState with rollingRef := true } ⟨0, none, none⟩).1 rfl,
   ((C7_roll_single_flight initState ⟨0, none, none⟩).2 rfl).1⟩

/-- Claim C4, counterexample: polling an invoice that never confirms performs
5 polls but only 4 inter-poll delays — 3s, 6s, 12s, 24s — not the claimed
five delays 3s, 6s, 12s, 24s, 30s; the 30s cap is never reached. -/
theorem C4_counterexample :
    (checkPaymentRun (List.replicate MAX_PAYMENT_ATTEMPTS PollResp.unpaid)).delays =
      [3000, 6000, 12000, 24000] ∧
    (checkPaymentRun (List.replicate MAX_PAYMENT_ATTEMPTS PollResp.unpaid)).delays ≠
      [3000, 6000, 12000, 24000, 30000] := by
  constructor <;> decide

/-- Claim C4 as amended: the payment watcher never performs more than
`MAX_PAYMENT_ATTEMPTS` (5) polls for any response sequence; on an invoice that
never confirms it polls exactly 5 times with the 4 inter-poll delays
`min(3s·2^(k−1), 30s)` for k = 1..4, i.e. 3s, 6s, 12s, 24s, and then times
out; the timeout only surfaces the "taking longer than expected" message,
leaving the invoice, payment hash and unpaid status in place. -/
theorem C4_payment_watcher_amended :
    (∀ rs : List PollResp, (checkPaymentRun rs).polls ≤ MAX_PAYMENT_ATTEMPTS) ∧
    checkPaymentRun (List.replicate MAX_PAYMENT_ATTEMPTS PollResp.unpaid) =
      ⟨PayOutcome.timedOut, MAX_PAYMENT_ATTEMPTS, [3000, 6000, 12000, 24000]⟩ ∧
    (∀ k : Nat, backoff k = min (INITIAL_BACKOFF_MS * 2 ^ (k - 1)) 30000) ∧
    (∀ s : GameState,
      (step Event.paymentTimeout s).invoice = s.invoice ∧
      (step Event.paymentTimeout s).paymentHash = s.paymentHash ∧
      (step Event.paymentTimeout s).paid = s.paid ∧
      (step Event.paymentTimeout s).errorMessage = some paymentTimeoutMsg) := by
  refine ⟨?_, by decide, fun k => rfl, ?_⟩
  · intro rs
    have h := verifyList_polls_le rs 0 (by norm_num [MAX_PAYMENT_ATTEMPTS])
    simpa [checkPaymentRun] using h
  · intro s
    refine ⟨?_, ?_, ?_, ?_⟩ <;> simp [step]



/-- Claim C1 is violated by the code: the payment-check effect
(App.jsx lines 205–208) discards the canceller returned by `checkPayment`, so
a poll still in flight when `resetGameState` runs resolves with
`cancelled = false` and mutates the reset session — here it sets `paid` and
runs the dice roll, writing a result into the fresh session. -/
theorem C1_stale_poll_mutates_after_reset :
    (verifyPaidResolve cancelledFlagAfterReset ⟨0, some 20000, none⟩
      (resetGameState
        (step (Event.selectGuess 3 (some ("inv", "hash"))) initState))).paid = true ∧
    (resetGameState
      (step (Event.selectGuess 3 (some ("inv", "hash"))) initState)).paid = false ∧
    (verifyPaidResolve cancelledFlagAfterReset ⟨0, some 20000, none⟩
      (resetGameState
        (step (Event.selectGuess 3 (some ("inv", "hash"))) initState))).result =
          some (GameResult.lost 1) ∧
    (resetGameState
      (step (Event.selectGuess 3 (some ("inv", "hash"))) initState)).result = none := by
  refine ⟨?_, ?_, ?_, ?_⟩ <;>
    norm_num [verifyPaidResolve, cancelledFlagAfterReset, step, handleGuess,
      createInvoice, resetGameState, rollDice, initState, fetchPotFromWallet,
      createLnurlWithdraw, isGuess, draw]

/-- Claim C2, counterexample: a reachable session (guess selected, payment
confirmed, winning roll, wallet query failed) has `awaitingPayout = true`
while no payout authorization exists — `lnurl` and `withdrawId` are unset.
`setAwaitingPayout(true)` runs before the withdraw link is created, and the
failed creation leaves the session awaiting a payout that was never
authorized. -/
theorem C2_counterexample :
    Reachable (step (Event.paymentPaid ⟨5/12, none, none⟩)
      (step (Event.selectGuess 3 (some ("inv", "hash"))) initState)) ∧
    (step (Event.paymentPaid ⟨5/12, none, none⟩)
      (step (Event.selectGuess 3 (some ("inv", "hash"))) initState)).awaitingPayout
        = true ∧
    (step (Event.paymentPaid ⟨5/12, none, none⟩)
      (step (Event.selectGuess 3 (some ("inv", "hash"))) initState)).lnurl = none ∧
    (step (Event.paymentPaid ⟨5/12, none, none⟩)
      (step (Event.selectGuess 3 (some ("inv", "hash"))) initState)).withdrawId
        = none := by
  refine ⟨Reachable.step _ _ (Reachable.step _ _ Reachable.init), ?_, ?_, ?_⟩ <;>
    norm_num [step, handleGuess, createInvoice, rollDice, initState,
      fetchPotFromWallet, createLnurlWithdraw, isGuess, draw]

/-- Claim C2 as amended: whenever a roll does issue a payout authorization,
its claimable amount (min = max) is the fee-buffered fresh pot reading —
`floor(balance/1000) − 10` computed from the wallet response fetched after
the win was detected, never from the previously stored pot — the amount is
strictly positive, and the session is awaiting the payout; but
`awaitingPayout = true` does not by itself imply the authorization exists. -/
theorem C2_payout_amount_from_fresh_pot (s : GameState) (env : RollEnv)
    (req : WithdrawRequest) (h : s.rollingRef = false)
    (hreq : (rollDice env s).request = some req) :
    ∃ b : Nat, env.balanceResp = some b ∧
      req.min_withdrawable = ((b / 1000 : Nat) : ℤ) - (FEE_BUFFER_SATS : ℤ) ∧
      req.max_withdrawable = req.min_withdrawable ∧
      0 < req.min_withdrawable ∧
      (rollDice env s).state.awaitingPayout = true := by
  rw [rollDice_request env s h] at hreq
  by_cases hg : isGuess s.guess (draw env.r) = true
  · rw [if_pos hg] at hreq
    by_cases hlow : (freshPot env : ℤ) - (FEE_BUFFER_SATS : ℤ) ≤ 0
    · rw [if_pos hlow] at hreq; exact absurd hreq (by simp)
    · rw [if_neg hlow] at hreq
      cases hb : env.balanceResp with
      | none => exact absurd hlow (by simp [freshPot, hb, FEE_BUFFER_SATS])
      | some b =>
          cases hw : env.withdrawResp with
          | none => rw [hw] at hreq; exact absurd hreq (by simp)
          | some r =>
              rw [hw] at hreq
              refine ⟨b, rfl, ?_, ?_, ?_, rollDice_awaitingPayout_of_win env s h hg⟩
              · have := (Option.some.injEq _ _).mp hreq
                rw [← this]
                simp [freshPot, hb]
              · have := (Option.some.injEq _ _).mp hreq
                rw [← this]
              · have := (Option.some.injEq _ _).mp hreq
                rw [← this]
                simp only [freshPot, hb] at hlow ⊢
                omega
  · rw [if_neg hg] at hreq; exact absurd hreq (by simp)

/-- Witness for C2 (amended) at a concrete winning roll with a fresh balance
of 15000 msat: the issued request claims exactly 15 − 10 = 5 sats. -/
theorem C2_witness :
    ∃ b : Nat, RollEnv.balanceResp ⟨0, some 15000, some ("lnurl1abc", "wid1")⟩ = some b ∧
      WithdrawRequest.min_withdrawable ⟨5, 5, 1, 1, true⟩ =
        ((b / 1000 : Nat) : ℤ) - (FEE_BUFFER_SATS : ℤ) ∧
      WithdrawRequest.max_withdrawable ⟨5, 5, 1, 1, true⟩ =
        WithdrawRequest.min_withdrawable ⟨5, 5, 1, 1, true⟩ ∧
      0 < WithdrawRequest.min_withdrawable ⟨5, 5, 1, 1, true⟩ ∧
      (rollDice ⟨0, some 15000, some ("lnurl1abc", "wid1")⟩
        { initState with guess := some 1 }).state.awaitingPayout = true :=
  C2_payout_amount_from_fresh_pot { initState with guess := some 1 }
    ⟨0, some 15000, some ("lnurl1abc", "wid1")⟩ ⟨5, 5, 1, 1, true⟩ rfl
    (by norm_num [rollDice_request, isGuess, draw, initState, freshPot, FEE_BUFFER_SATS])

/-- Claim C5: in every reachable session state, a roll result is recorded if
and only if the payment is confirmed. -/
theorem C5_outcome_iff_paid (s : GameState) (h : Reachable s) :
    s.result.isSome ↔ s.paid = true :=
  (reachable_sessionInv s h).1

/-- Witness for C5 at a concrete reachable state: after selecting a guess and
confirming payment, the result exists and the payment flag is set. -/
theorem C5_witness :
    (step (Event.paymentPaid ⟨0, some 20000, none⟩)
      (step (Event.selectGuess 2 (some ("inv", "hash"))) initState)).result.isSome ↔
    (step (Event.paymentPaid ⟨0, some 20000, none⟩)
      (step (Event.selectGuess 2 (some ("inv", "hash"))) initState)).paid = true :=
  C5_outcome_iff_paid _ (Reachable.step _ _ (Reachable.step _ _ Reachable.init))

/-- Claim C6: on a win whose fresh pot reading minus the fee buffer is ≤ 0,
no withdraw-link request is made, the distinct "Pot too low" message is
surfaced, no authorization fields are set, and the payout watcher never
starts — the outcome is terminal for this win. -/
theorem C6_pot_too_low_terminal (s : GameState) (env : RollEnv)
    (h : s.rollingRef = false) (hg : isGuess s.guess (draw env.r) = true)
    (hl : s.lnurl = none) (hw : s.withdrawId = none)
    (hlow : (freshPot env : ℤ) - (FEE_BUFFER_SATS : ℤ) ≤ 0) :
    (rollDice env s).request = none ∧
    (rollDice env s).state.errorMessage = some potTooLowMsg ∧
    (rollDice env s).state.lnurl = none ∧
    (rollDice env s).state.withdrawId = none ∧
    withdrawPollActive (rollDice env s).state = false ∧
    potTooLowMsg ≠ withdrawCreateErrMsg ∧
    potTooLowMsg ≠ fetchPotErrMsg := by
  obtain ⟨h1, h2, h3, h4, h5⟩ := rollDice_win_potTooLow env s h hg hlow
  refine ⟨h1, h2, hl ▸ h3, hw ▸ h4, ?_, by decide, by decide⟩
  simp [withdrawPollActive, h4, hw]

/-- Witness for C6 at a concrete win with balance 10999 msat: the claimable
amount 10 − 10 = 0 is not positive, so no request is made. -/
theorem C6_witness :
    (rollDice ⟨0, some 10999, some ("lnurl1abc", "wid1")⟩
      { initState with guess := some 1 }).request = none ∧
    (rollDice ⟨0, some 10999, some ("lnurl1abc", "wid1")⟩
      { initState with guess := some 1 }).state.errorMessage = some potTooLowMsg ∧
    (rollDice ⟨0, some 10999, some ("lnurl1abc", "wid1")⟩
      { initState with guess := some 1 }).state.lnurl = none ∧
    (rollDice ⟨0, some 10999, some ("lnurl1abc", "wid1")⟩
      { initState with guess := some 1 }).state.withdrawId = none ∧
    withdrawPollActive (rollDice ⟨0, some 10999, some ("lnurl1abc", "wid1")⟩
      { initState with guess := some 1 }).state = false ∧
    potTooLowMsg ≠ withdrawCreateErrMsg ∧
    potTooLowMsg ≠ fetchPotErrMsg :=
  C6_pot_too_low_terminal { initState with guess := some 1 }
    ⟨0, some 10999, some ("lnurl1abc", "wid1")⟩ rfl
    (by norm_num [isGuess, draw, initState]) rfl rfl
    (by norm_num [freshPot, FEE_BUFFER_SATS])

/-- Claim C8: for any selected guess g, a roll with random source in [0,1)
draws exactly one outcome, that outcome lies in {1..6}, and the session
result is a win exactly when the outcome equals g. -/
theorem C8_outcome_range_win_iff (s : GameState) (env : RollEnv) (g : ℤ)
    (h : s.rollingRef = false) (hg : s.guess = some g)
    (h0 : 0 ≤ env.r) (h1 : env.r < 1) :
    (rollDice env s).draws = [draw env.r] ∧
    1 ≤ draw env.r ∧ draw env.r ≤ 6 ∧
    ((rollDice env s).state.result = some GameResult.won ↔ draw env.r = g) := by
  have low : (0 : ℤ) ≤ ⌊env.r * 6⌋ := by
    apply Int.le_floor.mpr
    push_cast
    exact mul_nonneg h0 (by norm_num)
  have high : ⌊env.r * 6⌋ < 6 := by
    apply Int.floor_lt.mpr
    push_cast
    linarith
  refine ⟨rollDice_draws env s h, by unfold draw; omega, by unfold draw; omega, ?_⟩
  rw [rollDice_result env s h, hg]
  by_cases hdg : draw env.r = g
  · simp [isGuess, hdg]
  · simp [isGuess, hdg]

/-- Witness for C8 at random source 1/2 and guess 4: the draw is 4 and the
session is a win. -/
theorem C8_witness :
    (rollDice ⟨1/2, some 20000, some ("lnurl1abc", "wid1")⟩
      { initState with guess := some 4 }).draws = [draw (1/2)] ∧
    1 ≤ draw (1/2) ∧ draw (1/2) ≤ 6 ∧
    ((rollDice ⟨1/2, some 20000, some ("lnurl1abc", "wid1")⟩
      { initState with guess := some 4 }).state.result = some GameResult.won ↔
        draw (1/2) = 4) :=
  C8_outcome_range_win_iff { initState with guess := some 4 }
    ⟨1/2, some 20000, some ("lnurl1abc", "wid1")⟩ 4 rfl rfl
    (by norm_num) (by norm_num)

/-- Claim C9: while the payout watcher is active, a tick observing the
authorization used refreshes the pot and then resets the session to idle (no
guess, no invoice, no payment hash, no payout fields, no result); a tick
whose poll throws only records the error message and leaves the watcher
active, so the interval keeps retrying. -/
theorem C9_payout_claimed_resets (s : GameState) (b : Nat) (bf : Option Nat)
    (hactive : withdrawPollActive s = true) :
    ((withdrawTickFn (some true) (some b) s).pot = b / 1000 ∧
     (withdrawTickFn (some true) (some b) s).guess = none ∧
     (withdrawTickFn (some true) (some b) s).invoice = none ∧
     (withdrawTickFn (some true) (some b) s).paymentHash = none ∧
     (withdrawTickFn (some true) (some b) s).lnurl = none ∧
     (withdrawTickFn (some true) (some b) s).withdrawId = none ∧
     (withdrawTickFn (some true) (some b) s).awaitingPayout = false ∧
     (withdrawTickFn (some true) (some b) s).paid = false ∧
     (withdrawTickFn (some true) (some b) s).result = none) ∧
    withdrawTickFn none bf s = { s with errorMessage := some withdrawCheckErrMsg } ∧
    withdrawPollActive (withdrawTickFn none bf s) = true := by
  refine ⟨?_, ?_, ?_⟩
  · refine ⟨?_, ?_, ?_, ?_, ?_, ?_, ?_, ?_, ?_⟩ <;>
      simp [withdrawTickFn, hactive, resetGameState, fetchPotFromWallet]
  · simp [withdrawTickFn, hactive]
  · simp only [withdrawTickFn, hactive, if_true]
    simpa [withdrawPollActive] using hactive

/-- Witness for C9 on a concrete awaiting-payout session: claiming resets it
to idle with the pot refreshed to 42 sats; a failed poll only sets the error
and keeps the watcher active. -/
theorem C9_witness :
    ((withdrawTickFn (some true) (some 42000) samplePayoutState).pot = 42000 / 1000 ∧
     (withdrawTickFn (some true) (some 42000) samplePayoutState).guess = none ∧
     (withdrawTickFn (some true) (some 42000) samplePayoutState).invoice = none ∧
     (withdrawTickFn (some true) (some 42000) samplePayoutState).paymentHash = none ∧
     (withdrawTickFn (some true) (some 42000) samplePayoutState).lnurl = none ∧
     (withdrawTickFn (some true) (some 42000) samplePayoutState).withdrawId = none ∧
     (withdrawTickFn (some true) (some 42000) samplePayoutState).awaitingPayout = false ∧
     (withdrawTickFn (some true) (some 42000) samplePayoutState).paid = false ∧
     (withdrawTickFn (some true) (some 42000) samplePayoutState).result = none) ∧
    withdrawTickFn none none samplePayoutState =
      { samplePayoutState with errorMessage := some withdrawCheckErrMsg } ∧
    withdrawPollActive (withdrawTickFn none none samplePayoutState) = true :=
  C9_payout_claimed_resets samplePayoutState 42000 none rfl

/-- Claim C10: if the wallet query fails during the win path, the fresh
reading is 0, so the claimable amount 0 − 10 is not positive: the "Pot too
low" error is surfaced and no withdraw-link request is made, no matter how
large the previously stored pot was. -/
theorem C10_fetch_fail_win_no_payout (s : GameState) (env : RollEnv)
    (h : s.rollingRef = false) (hg : isGuess s.guess (draw env.r) = true)
    (hfail : env.balanceResp = none)
    (hl : s.lnurl = none) (hw : s.withdrawId = none) :
    (rollDice env s).request = none ∧
    (rollDice env s).state.errorMessage = some potTooLowMsg ∧
    (rollDice env s).state.lnurl = none ∧
    (rollDice env s).state.withdrawId = none := by
  have hlow : (freshPot env : ℤ) - (FEE_BUFFER_SATS : ℤ) ≤ 0 := by
    norm_num [freshPot, hfail, FEE_BUFFER_SATS]
  obtain ⟨h1, h2, h3, h4, _⟩ := rollDice_win_potTooLow env s h hg hlow
  exact ⟨h1, h2, hl ▸ h3, hw ▸ h4⟩

/-- Witness for C10 on a session whose stored pot is 1,000,000 sats: the
failed wallet query still forces the pot-too-low outcome. -/
theorem C10_witness :
    (rollDice ⟨0, none, some ("lnurl1abc", "wid1")⟩
      { initState with guess := some 1, pot := 1000000 }).request = none ∧
    (rollDice ⟨0, none, some ("lnurl1abc", "wid1")⟩
      { initState with guess := some 1, pot := 1000000 }).state.errorMessage =
        some potTooLowMsg ∧
    (rollDice ⟨0, none, some ("lnurl1abc", "wid1")⟩
      { initState with guess := some 1, pot := 1000000 }).state.lnurl = none ∧
    (rollDice ⟨0, none, some ("lnurl1abc", "wid1")⟩
      { initState with guess := some 1, pot := 1000000 }).state.withdrawId = none :=
  C10_fetch_fail_win_no_payout { initState with guess := some 1, pot := 1000000 }
    ⟨0, none, some ("lnurl1abc", "wid1")⟩ rfl
    (by norm_num [isGuess, draw, initState]) rfl rfl rfl

end DiceGame
